import Mathlib

/-!
Verification of the DeltaLux offset light group against its specification.

This file embeds the brightness-mapping function, the turn-on / turn-off
operations, the passive member-resynchronization pass and the YAML
configuration round trip of the DeltaLux Home Assistant integration
(`light.py`, `config_flow.py`, `const.py`) as executable Lean definitions,
and proves or refutes the specification's claims about them.

The Python source performs its brightness arithmetic on IEEE binary64
floats.  Those floats are modelled exactly: `fp64round` rounds a rational
to the nearest binary64 value (round to nearest, ties to even, 53-bit
significand; overflow and subnormals cannot occur on the bounded domains
involved), and each arithmetic operation of the source is a rational
operation followed by `fp64round`, which is precisely IEEE semantics when
neither operand nor result leaves the normal range.  Python's `int()`
conversion truncates toward zero and is modelled by `ratTrunc`.
-/

attribute [local semireducible] Rat.mul Rat.add Rat.sub Rat.inv

/-- Floor of a rational as an integer (`num / den` rounded down; the
denominator of a `Rat` is positive). -/
def ratFloor (q : ℚ) : ℤ := Int.fdiv q.num q.den

/-- Truncation of a rational toward zero, the behaviour of Python's
`int()` applied to a float. -/
def ratTrunc (q : ℚ) : ℤ := Int.tdiv q.num q.den

/-- Round a rational to the nearest integer, ties going up; the ordinary
reading of "round" in the specification. -/
def ratRound (q : ℚ) : ℤ := ratFloor (q + 1/2)

/-- Round a rational to the nearest integer, ties going to the even
neighbour (the IEEE binary64 tie-breaking rule). -/
def roundHalfEven (x : ℚ) : ℤ :=
  let f := ratFloor x
  let r := x - f
  if r < 1/2 then f
  else if 1/2 < r then f + 1
  else if f % 2 = 0 then f else f + 1

/-- Powers of two with integer exponent, as a rational. -/
def pow2 (e : ℤ) : ℚ :=
  if 0 ≤ e then ((2 ^ e.toNat : ℕ) : ℚ) else 1 / ((2 ^ (-e).toNat : ℕ) : ℚ)

/-- Number of halvings needed to bring `a ≥ 1` into `[1, 2)` (fuel-bounded
structural recursion so that the kernel can evaluate it). -/
def halvings : ℕ → ℚ → ℕ
  | 0, _ => 0
  | fuel + 1, a => if a < 2 then 0 else halvings fuel (a / 2) + 1

/-- Number of doublings needed to bring `0 < a < 1` up to at least `1`. -/
def doublings : ℕ → ℚ → ℕ
  | 0, _ => 0
  | fuel + 1, a => if 1 ≤ a then 0 else doublings fuel (a * 2) + 1

/-- Largest exponent `e` with `2 ^ e ≤ a`, for a positive rational `a`
within the IEEE binary64 exponent range (the fuel `1100` covers the whole
normal and subnormal range of binary64). -/
def log2floor (a : ℚ) : ℤ :=
  if 1 ≤ a then (halvings 1100 a : ℤ) else -(doublings 1100 a : ℤ)

/-- Round a rational to the nearest IEEE binary64 value (round to
nearest, ties to even, 53-bit significand).  Overflow and subnormals are
not modelled; no value appearing in the embedded program leaves the
normal range. -/
def fp64round (q : ℚ) : ℚ :=
  if q = 0 then 0
  else
    let a : ℚ := |q|
    let e : ℤ := log2floor a
    let n : ℤ := roundHalfEven (a * pow2 (52 - e))
    (if q < 0 then (-1 : ℚ) else 1) * (n : ℚ) * pow2 (e - 52)

/-- IEEE binary64 division of two (exactly represented) operands, the
meaning of Python's `/` on the values involved. -/
def pyDiv (a b : ℚ) : ℚ := fp64round (a / b)

/-- IEEE binary64 multiplication of two (exactly represented) operands. -/
def pyMul (a b : ℚ) : ℚ := fp64round (a * b)

/-- IEEE binary64 addition of two (exactly represented) operands. -/
def pyAdd (a b : ℚ) : ℚ := fp64round (a + b)

/-- Per-member configuration: `offset`, `min_brightness` and
`max_brightness` as stored in `self._entities_config` (`light.py`,
`async_setup_entry` / `_calculate_light_brightness`).  Offsets are
percentage points in `[-100, 100]`; the min/max fields are percentages in
`[1, 100]`. -/
structure MemberConfig where
  offset : ℤ
  min_brightness_pct : ℤ
  max_brightness_pct : ℤ
deriving DecidableEq, Repr

/-- The group's offset mode (`const.py`: `OFFSET_TYPE_ABSOLUTE`,
`OFFSET_TYPE_RELATIVE`). -/
inductive OffsetType where
  | absolute
  | relative
deriving DecidableEq, Repr

/-- The method `OffsetLightGroup._calculate_light_brightness` (`light.py`
lines 213–239), with the source's float arithmetic modelled exactly.  The
source looks the member's config up by entity id; here the already-looked-up
`MemberConfig` is passed directly. -/
def calculate_light_brightness (offset_type : OffsetType) (config : MemberConfig)
    (master_brightness : ℤ) : ℤ :=
  let min_brightness : ℤ := ratTrunc (pyMul (pyDiv config.min_brightness_pct 100) 255)
  let max_brightness : ℤ := ratTrunc (pyMul (pyDiv config.max_brightness_pct 100) 255)
  let target : ℤ :=
    match offset_type with
    | .relative =>
        let multiplier := pyDiv (100 + config.offset) 100
        ratTrunc (pyMul master_brightness multiplier)
    | .absolute =>
        let master_pct := pyMul (pyDiv master_brightness 255) 100
        let target_pct := pyAdd master_pct config.offset
        ratTrunc (pyMul (pyDiv target_pct 100) 255)
  max min_brightness (min max_brightness target)

/-- Clamping of `x` to `[lo, hi]` as used by the specification and by the
source's final `max(min_brightness, min(max_brightness, target))`. -/
def clamp (x lo hi : ℤ) : ℤ := max lo (min hi x)

/-- The brightness formula exactly as claim C1 states it (absolute mode):
`clamp(round((m/255*100+offset)/100*255), round(minPct/100*255),
round(maxPct/100*255))`, read with exact real (here rational) arithmetic
and `round` meaning rounding to the nearest integer. -/
def spec_absolute_round (config : MemberConfig) (m : ℤ) : ℤ :=
  clamp (ratRound (((m : ℚ) / 255 * 100 + config.offset) / 100 * 255))
    (ratRound ((config.min_brightness_pct : ℚ) / 100 * 255))
    (ratRound ((config.max_brightness_pct : ℚ) / 100 * 255))

/-- A variant of claim C1's formula with Python's toward-zero truncation in
place of `round` but still exact (rational) arithmetic; refuted below by the
source's float arithmetic, which justifies the float part of the amendment. -/
def spec_absolute_exact_trunc (config : MemberConfig) (m : ℤ) : ℤ :=
  clamp (ratTrunc (((m : ℚ) / 255 * 100 + config.offset) / 100 * 255))
    (ratTrunc ((config.min_brightness_pct : ℚ) / 100 * 255))
    (ratTrunc ((config.max_brightness_pct : ℚ) / 100 * 255))

/-- The amended claim C1 formula: truncation toward zero in place of
`round`, with each arithmetic step rounded to IEEE binary64 as the source's
float arithmetic does. -/
def spec_absolute_amended (config : MemberConfig) (m : ℤ) : ℤ :=
  clamp (ratTrunc (pyMul (pyDiv (pyAdd (pyMul (pyDiv (m : ℚ) 255) 100) (config.offset : ℚ)) 100) 255))
    (ratTrunc (pyMul (pyDiv (config.min_brightness_pct : ℚ) 100) 255))
    (ratTrunc (pyMul (pyDiv (config.max_brightness_pct : ℚ) 100) 255))

/-- The brightness formula exactly as claim C2 states it (relative mode):
`clamp(round(m*(100+offset)/100), minBound, maxBound)` with exact
arithmetic and `round` meaning rounding to the nearest integer.  The claim
leaves the conversion of the bounds to the 0–255 scale unspecified, so the
source's own conversion is used for them, isolating the rounding of the
target as the only point at issue. -/
def spec_relative_round (config : MemberConfig) (m : ℤ) : ℤ :=
  clamp (ratRound ((m : ℚ) * (100 + config.offset) / 100))
    (ratTrunc (pyMul (pyDiv (config.min_brightness_pct : ℚ) 100) 255))
    (ratTrunc (pyMul (pyDiv (config.max_brightness_pct : ℚ) 100) 255))

/-- A variant of claim C2's formula with truncation toward zero but exact
(rational) arithmetic for the target; refuted below by the source's float
arithmetic. -/
def spec_relative_exact_trunc (config : MemberConfig) (m : ℤ) : ℤ :=
  clamp (ratTrunc ((m : ℚ) * (100 + config.offset) / 100))
    (ratTrunc (pyMul (pyDiv (config.min_brightness_pct : ℚ) 100) 255))
    (ratTrunc (pyMul (pyDiv (config.max_brightness_pct : ℚ) 100) 255))

/-- The amended claim C2 formula: truncation toward zero in place of
`round`, with the multiplier and product rounded to IEEE binary64 as the
source's float arithmetic does. -/
def spec_relative_amended (config : MemberConfig) (m : ℤ) : ℤ :=
  clamp (ratTrunc (pyMul (m : ℚ) (pyDiv ((100 : ℚ) + config.offset) 100)))
    (ratTrunc (pyMul (pyDiv (config.min_brightness_pct : ℚ) 100) 255))
    (ratTrunc (pyMul (pyDiv (config.max_brightness_pct : ℚ) 100) 255))

/-- Color modes of the host's light model (the `ColorMode` enum values the
source manipulates). -/
inductive ColorMode where
  | onoff
  | brightness
  | colorTemp
  | hs
  | rgb
  | rgbw
  | rgbww
  | xy
  | white
deriving DecidableEq

/-- The mutable state of an `OffsetLightGroup` (`light.py` `__init__`):
on/off flag, stored master brightness, color state, capabilities and the
reentrancy guard flag.  The field `self._brightness` of the source is
initialized to 128 and never read or written again, so it is omitted.
Color payloads are carried verbatim: hue/saturation and xy as rational
pairs, the rgb-family as integer tuples, color temperature as an
integer. -/
structure GroupState where
  is_on : Bool
  master_brightness : ℤ
  color_mode : Option ColorMode
  hs_color : Option (ℚ × ℚ)
  color_temp : Option ℤ
  rgb_color : Option (ℤ × ℤ × ℤ)
  rgbw_color : Option (ℤ × ℤ × ℤ × ℤ)
  rgbww_color : Option (ℤ × ℤ × ℤ × ℤ × ℤ)
  xy_color : Option (ℚ × ℚ)
  supported_color_modes : Finset ColorMode
  supported_features : ℕ
  applying_state : Bool
deriving DecidableEq

/-- The keyword arguments accepted by `async_turn_on`: optional brightness,
the six optional color payload attributes, and an optional transition. -/
structure TurnOnKwargs where
  brightness : Option ℤ
  hs_color : Option (ℚ × ℚ)
  color_temp : Option ℤ
  rgb_color : Option (ℤ × ℤ × ℤ)
  rgbw_color : Option (ℤ × ℤ × ℤ × ℤ)
  rgbww_color : Option (ℤ × ℤ × ℤ × ℤ × ℤ)
  xy_color : Option (ℚ × ℚ)
  transition : Option ℚ
deriving DecidableEq

/-- The method `_store_color_from_kwargs` (`light.py` lines 330–349): one
`if attr in kwargs` block per color attribute, in the source's order HS,
RGB, RGBW, RGBWW, XY, COLOR_TEMP, each storing the payload and setting the
color mode. -/
def store_color_from_kwargs (s : GroupState) (kwargs : TurnOnKwargs) : GroupState :=
  let s := match kwargs.hs_color with
    | some v => { s with hs_color := some v, color_mode := some ColorMode.hs }
    | none => s
  let s := match kwargs.rgb_color with
    | some v => { s with rgb_color := some v, color_mode := some ColorMode.rgb }
    | none => s
  let s := match kwargs.rgbw_color with
    | some v => { s with rgbw_color := some v, color_mode := some ColorMode.rgbw }
    | none => s
  let s := match kwargs.rgbww_color with
    | some v => { s with rgbww_color := some v, color_mode := some ColorMode.rgbww }
    | none => s
  let s := match kwargs.xy_color with
    | some v => { s with xy_color := some v, color_mode := some ColorMode.xy }
    | none => s
  let s := match kwargs.color_temp with
    | some v => { s with color_temp := some v, color_mode := some ColorMode.colorTemp }
    | none => s
  s

/-- The immutable configuration of a group: the offset mode and the
insertion-ordered `entities_config` mapping from entity id to per-member
config built in `async_setup_entry`. -/
structure GroupConfig where
  offset_type : OffsetType
  entities_config : List (String × MemberConfig)
deriving DecidableEq

/-- The service data of one member `light.turn_on` call built inside
`async_turn_on`: the member's entity id, its computed brightness, the six
color attributes forwarded verbatim when supplied, and the transition when
supplied. -/
structure TurnOnServiceData where
  entity_id : String
  brightness : ℤ
  hs_color : Option (ℚ × ℚ)
  color_temp : Option ℤ
  rgb_color : Option (ℤ × ℤ × ℤ)
  rgbw_color : Option (ℤ × ℤ × ℤ × ℤ)
  rgbww_color : Option (ℤ × ℤ × ℤ × ℤ × ℤ)
  xy_color : Option (ℚ × ℚ)
  transition : Option ℚ
deriving DecidableEq

/-- Externally visible events of a turn-on / turn-off operation, in
program order: setting and clearing the `_applying_state` guard flag, the
dispatches to the external light service, and publishing the group's state
via `async_write_ha_state`. -/
inductive Event where
  | set_guard
  | dispatch_turn_on (data : TurnOnServiceData)
  | dispatch_turn_off (entity_ids : List String) (transition : Option ℚ)
  | write_ha_state
  | clear_guard
deriving DecidableEq

/-- Recognizer for the guard-clearing event. -/
def isClearGuard : Event → Bool
  | Event.clear_guard => true
  | _ => false

/-- The per-member `light.turn_on` service data built by the loop body of
`async_turn_on` for one member, given the master brightness in effect. -/
def member_turn_on_data (cfg : GroupConfig) (master : ℤ) (kwargs : TurnOnKwargs)
    (ec : String × MemberConfig) : TurnOnServiceData :=
  { entity_id := ec.1
    brightness := calculate_light_brightness cfg.offset_type ec.2 master
    hs_color := kwargs.hs_color
    color_temp := kwargs.color_temp
    rgb_color := kwargs.rgb_color
    rgbw_color := kwargs.rgbw_color
    rgbww_color := kwargs.rgbww_color
    xy_color := kwargs.xy_color
    transition := kwargs.transition }

/-- The method `async_turn_on` (`light.py` lines 351–392) as a function
from the prior state to the new state and the list of events, with the
possibility that a member dispatch raises modelled by `fail_at`:
`fail_at = some k` (with `k` below the member count) means the `k`-th
member's `light.turn_on` call raises, aborting the remaining fan-out and
skipping the `_is_on` update and state publication.  The `try/finally` of
the source clears the guard flag on both paths. -/
def async_turn_on (cfg : GroupConfig) (s : GroupState) (kwargs : TurnOnKwargs)
    (fail_at : Option ℕ) : GroupState × List Event :=
  let s1 : GroupState := { s with applying_state := true }
  let s2 : GroupState := match kwargs.brightness with
    | some b => { s1 with master_brightness := b }
    | none => s1
  let s3 : GroupState := store_color_from_kwargs s2 kwargs
  let calls : List TurnOnServiceData :=
    cfg.entities_config.map (member_turn_on_data cfg s3.master_brightness kwargs)
  match fail_at with
  | some k =>
    if k < calls.length then
      ({ s3 with applying_state := false },
        [Event.set_guard] ++ (calls.take (k + 1)).map Event.dispatch_turn_on
          ++ [Event.clear_guard])
    else
      ({ s3 with is_on := true, applying_state := false },
        [Event.set_guard] ++ calls.map Event.dispatch_turn_on
          ++ [Event.write_ha_state, Event.clear_guard])
  | none =>
      ({ s3 with is_on := true, applying_state := false },
        [Event.set_guard] ++ calls.map Event.dispatch_turn_on
          ++ [Event.write_ha_state, Event.clear_guard])

/-- The method `async_turn_off` (`light.py` lines 394–419) as a function
from the prior state to the new state and the event list: one batched
`light.turn_off` dispatch for all members, then `_is_on = False` and state
publication; `fail` models that dispatch raising.  Master brightness is
not touched, and the `try/finally` clears the guard flag on both paths. -/
def async_turn_off (cfg : GroupConfig) (s : GroupState) (transition : Option ℚ)
    (fail : Bool) : GroupState × List Event :=
  let s1 : GroupState := { s with applying_state := true }
  let ids : List String := cfg.entities_config.map Prod.fst
  if fail then
    ({ s1 with applying_state := false },
      [Event.set_guard, Event.dispatch_turn_off ids transition, Event.clear_guard])
  else
    ({ s1 with is_on := false, applying_state := false },
      [Event.set_guard, Event.dispatch_turn_off ids transition,
        Event.write_ha_state, Event.clear_guard])

/-- The `brightness` property (`light.py` lines 149–152): the stored
master brightness while the group is on, `None` otherwise. -/
def brightness (s : GroupState) : Option ℤ :=
  if s.is_on then some s.master_brightness else none

/-- The `state` string of a member's observation: the recognized constants
`STATE_ON`, `STATE_UNAVAILABLE`, `STATE_UNKNOWN`, plus `off` and `other`
for every remaining state string. -/
inductive ObsStateVal where
  | on
  | off
  | unavailable
  | unknown
  | other
deriving DecidableEq

/-- A raw color-mode attribute value as found in a member's attributes:
either a recognized `ColorMode` or an unrecognized string (for which the
source's `ColorMode(...)` conversion raises `ValueError`). -/
inductive RawColorMode where
  | known (m : ColorMode)
  | unrecognized
deriving DecidableEq

/-- One member observation as returned by `self.hass.states.get`: the
state string and the attributes read by `_update_state_from_members`.
Missing attributes are `none`. -/
structure StateObj where
  state : ObsStateVal
  brightness : Option ℤ
  color_mode : Option RawColorMode
  hs_color : Option (ℚ × ℚ)
  color_temp : Option ℤ
  rgb_color : Option (ℤ × ℤ × ℤ)
  rgbw_color : Option (ℤ × ℤ × ℤ × ℤ)
  rgbww_color : Option (ℤ × ℤ × ℤ × ℤ × ℤ)
  xy_color : Option (ℚ × ℚ)
  supported_color_modes : Option (List RawColorMode)
  supported_features : Option ℕ
deriving DecidableEq

/-- The accumulator of the member loop of `_update_state_from_members`:
`on_states`, the collected supported color modes and the OR of the
supported feature bitsets.  (The source also collects `brightness_values`,
which is never read afterwards, so it is omitted.) -/
structure SyncAcc where
  on_states : List String
  color_modes : Finset ColorMode
  features : ℕ
deriving DecidableEq

/-- The body of the member loop of `_update_state_from_members` for one
member: members whose observation is absent or `unavailable`/`unknown`
are skipped; an `on` member is appended to `on_states`; recognized
supported color modes are added to the set (unrecognized ones are logged
and ignored); a truthy feature bitset is ORed in.  The source's truthiness
tests on the attribute values (empty list, zero bitset) are preserved. -/
def sync_step (hass_states : List (String × StateObj)) (acc : SyncAcc)
    (ec : String × MemberConfig) : SyncAcc :=
  match List.lookup ec.1 hass_states with
  | none => acc
  | some st =>
    if st.state = ObsStateVal.unavailable ∨ st.state = ObsStateVal.unknown then acc
    else
      let acc1 := if st.state = ObsStateVal.on
        then { acc with on_states := acc.on_states ++ [ec.1] } else acc
      let acc2 := match st.supported_color_modes with
        | some modes =>
          if modes ≠ [] then
            { acc1 with color_modes := modes.foldl (fun cms rm =>
                match rm with
                | RawColorMode.known m => insert m cms
                | RawColorMode.unrecognized => cms) acc1.color_modes }
          else acc1
        | none => acc1
      match st.supported_features with
      | some f => if f ≠ 0 then { acc2 with features := acc2.features ||| f } else acc2
      | none => acc2

/-- Whether the member with entity id `e` currently reports `on` in
`hass_states` (absent observations report nothing). -/
def reports_on (hass_states : List (String × StateObj)) (e : String) : Bool :=
  match List.lookup e hass_states with
  | some st => st.state = ObsStateVal.on
  | none => false

/-- The callback `_update_state_from_members` (`light.py` lines 276–328):
one pass over the members accumulating `on_states`, supported color modes
and features; then `_is_on = len(on_states) > 0`, the capability fields
are refreshed (defaulting to brightness-only when no modes were
collected), and, when some member is on, the first such member's color
mode and color payloads are copied verbatim onto the group state
(an absent or unrecognized color mode becomes `None`).  When no member is
on, the color fields are left as they were.  `hass_states` plays the role
of `self.hass.states`. -/
def update_state_from_members (cfg : GroupConfig)
    (hass_states : List (String × StateObj)) (s : GroupState) : GroupState :=
  let r : SyncAcc := cfg.entities_config.foldl (sync_step hass_states)
    { on_states := [], color_modes := ∅, features := 0 }
  let s1 : GroupState := { s with
    is_on := !r.on_states.isEmpty
    supported_color_modes :=
      if r.color_modes = ∅ then {ColorMode.brightness} else r.color_modes
    supported_features := r.features }
  match r.on_states.head? with
  | none => s1
  | some first =>
    match List.lookup first hass_states with
    | none => s1
    | some st =>
      { s1 with
        color_mode := match st.color_mode with
          | some (RawColorMode.known m) => some m
          | some RawColorMode.unrecognized => none
          | none => none
        hs_color := st.hs_color
        color_temp := st.color_temp
        rgb_color := st.rgb_color
        rgbw_color := st.rgbw_color
        rgbww_color := st.rgbww_color
        xy_color := st.xy_color }

/-- The modes of the color payloads present in a turn-on call, listed in
the source's checking order HS, RGB, RGBW, RGBWW, XY, COLOR_TEMP. -/
def color_payload_modes (kwargs : TurnOnKwargs) : List ColorMode :=
  (if kwargs.hs_color.isSome then [ColorMode.hs] else []) ++
  (if kwargs.rgb_color.isSome then [ColorMode.rgb] else []) ++
  (if kwargs.rgbw_color.isSome then [ColorMode.rgbw] else []) ++
  (if kwargs.rgbww_color.isSome then [ColorMode.rgbww] else []) ++
  (if kwargs.xy_color.isSome then [ColorMode.xy] else []) ++
  (if kwargs.color_temp.isSome then [ColorMode.colorTemp] else [])

/-- One line of a YAML document, as a list of characters.  The source's
`config_to_yaml` builds a Python list of lines and joins it with a single
newline; `yaml.safe_load` conversely splits on newlines.  The embedding
works directly on the list of lines; the join/split step is the identity
on documents whose scalars contain no newline, which the validity
predicate `plainName` below guarantees. -/
abbrev Line := List Char

/-- Value of a decimal digit character (48 is the character code of the
digit zero). -/
def digitVal (c : Char) : Option ℕ :=
  if c.isDigit then some (c.toNat - 48) else none

/-- Decimal digits of a natural number, most significant first
(fuel-bounded so the kernel can evaluate it; the fuel is always
sufficient at the call site in `natChars`). -/
def natCharsAux : ℕ → ℕ → Line
  | 0, _ => []
  | fuel + 1, n =>
    if n < 10 then [Nat.digitChar n]
    else natCharsAux fuel (n / 10) ++ [Nat.digitChar (n % 10)]

/-- Decimal representation of a natural number. -/
def natChars (n : ℕ) : Line := natCharsAux (n + 1) n

/-- Decimal representation of an integer, matching Python's string
formatting of an `int`. -/
def intChars (n : ℤ) : Line :=
  if n < 0 then ('-') :: natChars (-n).toNat else natChars n.toNat

/-- Accumulating parser for a run of decimal digits. -/
def parseNatAux : Line → ℕ → Option ℕ
  | [], acc => some acc
  | c :: rest, acc =>
    match digitVal c with
    | some d => parseNatAux rest (acc * 10 + d)
    | none => none

/-- Parse a nonempty all-digit line as a natural number. -/
def parseNatChars (l : Line) : Option ℕ :=
  if l.isEmpty then none else parseNatAux l 0

/-- Parse an optionally `-`-signed decimal integer, the integer scalars
the modelled YAML loader resolves. -/
def parseIntChars (l : Line) : Option ℤ :=
  match l with
  | [] => none
  | c :: rest =>
    if c = '-' then (parseNatChars rest).map (fun n => -(n : ℤ))
    else (parseNatChars (c :: rest)).map (fun n => (n : ℤ))

/-- A YAML scalar of the modelled subset: an integer or a plain string.
PyYAML additionally resolves booleans, floats and null; documents whose
scalars would hit those resolutions are excluded by the validity
predicate `plainName`. -/
inductive YScalar where
  | str (s : Line)
  | int (n : ℤ)
deriving DecidableEq

/-- Scalar resolution of the modelled loader: a decimal integer literal
becomes an `int`, everything else stays a string. -/
def resolveScalar (s : Line) : YScalar :=
  match parseIntChars s with
  | some n => YScalar.int n
  | none => YScalar.str s

/-- A top-level YAML value of the modelled subset: a scalar, or a block
list of flat mappings (the shape of the `lights:` block). -/
inductive YTop where
  | scalar (v : YScalar)
  | list (items : List (List (Line × YScalar)))
deriving DecidableEq

/-- A parsed YAML document of the modelled subset: a top-level mapping. -/
abbrev YDoc := List (Line × YTop)

/-- Drop an exact prefix from a line, or fail. -/
def stripPrefixLine (p l : Line) : Option Line :=
  if p.isPrefixOf l then some (l.drop p.length) else none

/-- Split a line of the form `key: value` at the first colon. -/
def splitKV (l : Line) : Option (Line × Line) :=
  let key := l.takeWhile (fun c => c != ':')
  if (key ++ [':', ' ']).isPrefixOf l then some (key, l.drop (key.length + 2))
  else none

/-- Recognize a key-only line `key:` that opens an indented block. -/
def blockKeyOf (l : Line) : Option Line :=
  if (l.getLast? == some ':') && l.dropLast.all (fun c => c != ':') then
    some l.dropLast
  else none

/-- Parse the continuation lines of one list item (four-space indented
`key: value` lines). -/
def parseContPairs : List Line → Option (List (Line × YScalar))
  | [] => some []
  | l :: rest =>
    match stripPrefixLine ("    ".toList) l with
    | none => none
    | some body =>
      match splitKV body with
      | none => none
      | some (k, v) =>
        match parseContPairs rest with
        | none => none
        | some ps => some ((k, resolveScalar v) :: ps)

/-- Parse a block list of flat mappings: each item opens with a
`  - key: value` line and continues with four-space indented lines
(fuel-bounded; the fuel is always sufficient at the call site). -/
def parseItemsAux : ℕ → List Line → Option (List (List (Line × YScalar)))
  | 0, _ => none
  | _ + 1, [] => some []
  | fuel + 1, l :: rest =>
    match stripPrefixLine ("  - ".toList) l with
    | none => none
    | some firstBody =>
      match splitKV firstBody with
      | none => none
      | some (k, v) =>
        let contLines := rest.takeWhile (fun l2 => ("    ".toList).isPrefixOf l2)
        let remaining := rest.dropWhile (fun l2 => ("    ".toList).isPrefixOf l2)
        match parseContPairs contLines with
        | none => none
        | some pairs =>
          match parseItemsAux fuel remaining with
          | none => none
          | some items => some (((k, resolveScalar v) :: pairs) :: items)

/-- Modelled from the spec: `yaml.safe_load` of the PyYAML library (not
part of this repository), restricted to the block-style subset of YAML
that `config_to_yaml` emits — top-level `key: value` scalars and one-level
blocks of `- key: value` item mappings.  Comments, flow style, anchors,
nested blocks, non-integer scalar resolutions and duplicate-key handling
are outside the model; the round-trip validity predicate keeps all inputs
inside the modelled subset. -/
def safeLoadAux : ℕ → List Line → Option YDoc
  | 0, _ => none
  | _ + 1, [] => some []
  | fuel + 1, l :: rest =>
    match splitKV l with
    | some (k, v) =>
      match safeLoadAux fuel rest with
      | some doc => some ((k, YTop.scalar (resolveScalar v)) :: doc)
      | none => none
    | none =>
      match blockKeyOf l with
      | some k =>
        let blockLines := rest.takeWhile (fun l2 => ("  ".toList).isPrefixOf l2)
        let remaining := rest.dropWhile (fun l2 => ("  ".toList).isPrefixOf l2)
        match parseItemsAux (blockLines.length + 1) blockLines with
        | some items =>
          match safeLoadAux fuel remaining with
          | some doc => some ((k, YTop.list items) :: doc)
          | none => none
        | none => none
      | none => none

/-- Entry point of the modelled `yaml.safe_load`, on a document given as
its list of lines. -/
def safe_load (ls : List Line) : Option YDoc := safeLoadAux (ls.length + 1) ls

/-- One light entry of a structured group configuration, as built by the
config flow (`CONF_ENTITY_ID`, `CONF_OFFSET`, `CONF_MIN_BRIGHTNESS`,
`CONF_MAX_BRIGHTNESS`). -/
structure LightConf where
  entity_id : Line
  offset : ℤ
  min_brightness : ℤ
  max_brightness : ℤ
deriving DecidableEq

/-- A structured group configuration `{name, offset_type, lights}` as
stored in a config entry. -/
structure GroupConfigS where
  name : Line
  offset_type : Line
  lights : List LightConf
deriving DecidableEq

/-- The four lines `config_to_yaml` emits for one light entry.  The
source applies `int(...)` to the three numeric fields, which is the
identity on the integers carried here. -/
def light_yaml_lines (light : LightConf) : List Line :=
  [("  - entity_id: ".toList) ++ light.entity_id,
   ("    offset: ".toList) ++ intChars light.offset,
   ("    min_brightness: ".toList) ++ intChars light.min_brightness,
   ("    max_brightness: ".toList) ++ intChars light.max_brightness]

/-- The function `config_to_yaml` (`config_flow.py` lines 48–65), as the
list of lines the source joins with newlines. -/
def config_to_yaml (config : GroupConfigS) : List Line :=
  ([("name: ".toList) ++ config.name,
    ("offset_type: ".toList) ++ config.offset_type,
    ("lights:".toList)])
  ++ (config.lights.map light_yaml_lines).flatten

/-- One validated light entry as `yaml_to_config` returns it: the
numeric fields keep whatever scalar the YAML held (the source does not
validate their types). -/
structure LightEntryOut where
  entity_id : Line
  offset : YScalar
  min_brightness : YScalar
  max_brightness : YScalar
deriving DecidableEq

/-- The configuration dict `yaml_to_config` returns: `name` and
`offset_type` keep whatever YAML value was present. -/
structure ConfigOut where
  name : YTop
  offset_type : YTop
  lights : List LightEntryOut
deriving DecidableEq

/-- The function `_validate_light_entry` (`config_flow.py` lines 68–87),
returning the source's `(config, error)` pair.  Items of the modelled
loader are always mappings, so the `isinstance` check always passes.  The
source calls `entity_id.startswith` without a type guard, so a non-string
`entity_id` raises; that crash is modelled as an error result. -/
def validate_light_entry (light : List (Line × YScalar)) (index : ℕ) :
    Option LightEntryOut × Option Line :=
  match List.lookup ("entity_id".toList) light with
  | none =>
    (none, some (("Light entry ".toList) ++ natChars (index + 1)
      ++ (" missing entity_id".toList)))
  | some (YScalar.int _) =>
    (none, some ("TypeError: entity_id is not a string".toList))
  | some (YScalar.str e) =>
    if ("light.".toList).isPrefixOf e then
      (some
        { entity_id := e
          offset := (List.lookup ("offset".toList) light).getD (YScalar.int 0)
          min_brightness :=
            (List.lookup ("min_brightness".toList) light).getD (YScalar.int 1)
          max_brightness :=
            (List.lookup ("max_brightness".toList) light).getD (YScalar.int 100) },
        none)
    else
      (none, some (("Invalid entity_id: ".toList) ++ e
        ++ (" (must start with light.)".toList)))

/-- The enumeration loop of `yaml_to_config` over the light entries,
carrying the running index used in error messages; the first failing
entry aborts the loop with its error. -/
def validateLights : List (List (Line × YScalar)) → ℕ →
    Option (List LightEntryOut) × Option Line
  | [], _ => (some [], none)
  | light :: rest, i =>
    match validate_light_entry light i with
    | (none, err) => (none, err)
    | (some entry, _) =>
      match validateLights rest (i + 1) with
      | (none, err) => (none, err)
      | (some es, _) => (some (entry :: es), none)

/-- The function `yaml_to_config` (`config_flow.py` lines 90–124) on a
document given as lines, with `yaml.safe_load` replaced by the modelled
loader, returning the source's `(config, error_message)` pair.  The
modelled loader only ever yields a top-level mapping, so the source's
`YAML must be a dictionary/mapping` branch is unreachable here; a loader
failure maps to the `Invalid YAML syntax` branch. -/
def yaml_to_config (ls : List Line) : Option ConfigOut × Option Line :=
  match safe_load ls with
  | none => (none, some ("Invalid YAML syntax".toList))
  | some parsed =>
    match List.lookup ("name".toList) parsed with
    | none => (none, some ("Missing required field: name".toList))
    | some nameVal =>
      match List.lookup ("lights".toList) parsed with
      | none => (none, some ("Missing required field: lights".toList))
      | some (YTop.scalar _) => (none, some ("lights must be a list".toList))
      | some (YTop.list items) =>
        if items.length < 2 then
          (none, some ("At least 2 lights are required".toList))
        else
          match validateLights items 0 with
          | (none, err) => (none, err)
          | (some lights_config, _) =>
            (some
              { name := nameVal
                offset_type :=
                  (List.lookup ("offset_type".toList) parsed).getD
                    (YTop.scalar (YScalar.str ("absolute".toList)))
                lights := lights_config },
              none)

/-- Characters that may never occur in a scalar that is expected to
round-trip: newline and tab break the line structure, a colon or a hash
can change how the line parses. -/
def charForbidden (c : Char) : Bool :=
  c == ':' || c == '#' || c.toNat == 10 || c.toNat == 9

/-- Characters that a round-trippable plain scalar may not start with:
YAML indicator characters, whitespace, and anything that could open a
number, a flow collection or a quoted string (codes 123/125 are the
braces, 96 the backtick, 39 the apostrophe, 34 the double quote). -/
def headForbidden (c : Char) : Bool :=
  c == '-' || c == '?' || c == ',' || c == '[' || c == ']' || c == '&' ||
  c == '*' || c == '!' || c == '|' || c == '>' || c == '%' || c == '@' ||
  c == ' ' || c == '~' || c == '+' || c == '.' || c.isDigit ||
  c.toNat == 123 || c.toNat == 125 || c.toNat == 96 || c.toNat == 39 ||
  c.toNat == 34

/-- Words (compared lowercased) that PyYAML resolves to booleans, null or
special floats instead of strings. -/
def reservedScalarWords : List Line :=
  [("true".toList), ("false".toList), ("yes".toList), ("no".toList),
   ("on".toList), ("off".toList), ("null".toList), (".inf".toList),
   (".nan".toList)]

/-- Validity of a scalar field value for the YAML round trip: nonempty,
an unproblematic first character, no trailing space, no forbidden
character anywhere, and not a reserved word.  This makes precise the
"valid field values" of the round-trip claim: such a scalar is written
and re-read as exactly the same string by YAML. -/
def plainName (s : Line) : Bool :=
  match s with
  | [] => false
  | c :: _ =>
    !headForbidden c && s.all (fun x => !charForbidden x) &&
    !(s.getLast? == some ' ') &&
    !(reservedScalarWords.contains (s.map Char.toLower))

/-- The mapping the modelled loader should produce for one serialized
light entry. -/
def light_item_map (light : LightConf) : List (Line × YScalar) :=
  [(("entity_id".toList), YScalar.str light.entity_id),
   (("offset".toList), YScalar.int light.offset),
   (("min_brightness".toList), YScalar.int light.min_brightness),
   (("max_brightness".toList), YScalar.int light.max_brightness)]

/-- The light entry `yaml_to_config` should reconstruct for one original
light entry. -/
def light_entry_out (light : LightConf) : LightEntryOut :=
  { entity_id := light.entity_id
    offset := YScalar.int light.offset
    min_brightness := YScalar.int light.min_brightness
    max_brightness := YScalar.int light.max_brightness }

/-- The configuration `yaml_to_config` should reconstruct from a
serialized `GroupConfigS`: the original configuration, injected into the
loader's value representation (so the round trip is lossless). -/
def expected_roundtrip (config : GroupConfigS) : ConfigOut :=
  { name := YTop.scalar (YScalar.str config.name)
    offset_type := YTop.scalar (YScalar.str config.offset_type)
    lights := config.lights.map light_entry_out }

/-- A concrete two-light configuration used to witness the round-trip
theorem. -/
def roundtrip_example_config : GroupConfigS :=
  { name := "Kitchen Group".toList
    offset_type := "absolute".toList
    lights :=
      [{ entity_id := "light.a".toList, offset := -5,
         min_brightness := 1, max_brightness := 100 },
       { entity_id := "light.b".toList, offset := 10,
         min_brightness := 20, max_brightness := 80 }] }

/-- A concrete group state with the group off, used in witnesses. -/
def example_state_off : GroupState :=
  { is_on := false, master_brightness := 128, color_mode := none,
    hs_color := some (10, 20), color_temp := none, rgb_color := none,
    rgbw_color := none, rgbww_color := none, xy_color := none,
    supported_color_modes := ∅, supported_features := 0,
    applying_state := false }

/-- A concrete group state with the group on, used in witnesses. -/
def example_state_on : GroupState :=
  { is_on := true, master_brightness := 200, color_mode := none,
    hs_color := none, color_temp := none, rgb_color := none,
    rgbw_color := none, rgbww_color := none, xy_color := none,
    supported_color_modes := ∅, supported_features := 0,
    applying_state := false }

/-- A concrete single-group configuration with two members, used in
witnesses. -/
def example_group_config : GroupConfig :=
  { offset_type := OffsetType.absolute
    entities_config :=
      [("light.a", { offset := -25, min_brightness_pct := 1, max_brightness_pct := 100 }),
       ("light.b", { offset := 10, min_brightness_pct := 20, max_brightness_pct := 80 })] }

/-- Concrete member observations with every member off, used in the C7
witness. -/
def example_hass_states_off : List (String × StateObj) :=
  [("light.a",
    { state := ObsStateVal.off, brightness := none, color_mode := none,
      hs_color := none, color_temp := none, rgb_color := none,
      rgbw_color := none, rgbww_color := none, xy_color := none,
      supported_color_modes := some [RawColorMode.known ColorMode.hs],
      supported_features := some 32 })]

/-- Concrete turn-on keyword arguments with no brightness and no colors,
used in the C4 witness. -/
def example_kwargs_plain : TurnOnKwargs :=
  { brightness := none, hs_color := none, color_temp := none,
    rgb_color := none, rgbw_color := none, rgbww_color := none,
    xy_color := none, transition := none }

/-- Concrete turn-on keyword arguments carrying both an hs color and a
color temperature, used in the C8 witness. -/
def example_kwargs_two_colors : TurnOnKwargs :=
  { brightness := none, hs_color := some (120, 50), color_temp := some 300,
    rgb_color := none, rgbw_color := none, rgbww_color := none,
    xy_color := none, transition := none }

/-- Concrete turn-on keyword arguments carrying exactly an rgb color,
used in the C8 witness. -/
def example_kwargs_rgb : TurnOnKwargs :=
  { brightness := none, hs_color := none, color_temp := none,
    rgb_color := some (10, 20, 30), rgbw_color := none, rgbww_color := none,
    xy_color := none, transition := none }

/-- Claim C1: in absolute offset mode the brightness-mapping function is
claimed to return `clamp(round((m/255*100+offset)/100*255),
round(minPct/100*255), round(maxPct/100*255))`.  Counterexample: at
master 0, offset 10, bounds [1,100] the code returns 25 (it truncates
25.5 toward zero) while the claimed formula rounds to 26; moreover, at
master 15, offset 0 the code returns 14 (float arithmetic computes
14.999999999999998) while even the truncating exact formula gives 15, so
the amendment must also keep the source's float arithmetic. -/
theorem C1_counterexample :
    calculate_light_brightness OffsetType.absolute
        { offset := 10, min_brightness_pct := 1, max_brightness_pct := 100 } 0 ≠
      spec_absolute_round
        { offset := 10, min_brightness_pct := 1, max_brightness_pct := 100 } 0 ∧
    calculate_light_brightness OffsetType.absolute
        { offset := 0, min_brightness_pct := 1, max_brightness_pct := 100 } 15 ≠
      spec_absolute_exact_trunc
        { offset := 0, min_brightness_pct := 1, max_brightness_pct := 100 } 15 := by
  constructor
  · decide
  · decide

/-- Claim C1 as amended: for master brightness in [0,255] and minPct ≤
maxPct, the absolute-mode result is `clamp(trunc((m/255*100+offset)/100*255),
trunc(minPct/100*255), trunc(maxPct/100*255))` where `trunc` truncates
toward zero and every arithmetic step is IEEE binary64, exactly as the
source's float arithmetic computes it. -/
theorem C1_amended (config : MemberConfig) (m : ℤ)
    (h0 : 0 ≤ m) (h255 : m ≤ 255)
    (hminmax : config.min_brightness_pct ≤ config.max_brightness_pct) :
    calculate_light_brightness OffsetType.absolute config m =
      spec_absolute_amended config m := rfl

/-- Witness for C1: the amended formula evaluated at master 200, offset
-25, bounds [1,100] — the hypotheses hold and both sides equal 136. -/
theorem C1_amended_witness :
    (0 : ℤ) ≤ 200 ∧ (200 : ℤ) ≤ 255 ∧ (1 : ℤ) ≤ 100 ∧
    calculate_light_brightness OffsetType.absolute
        { offset := -25, min_brightness_pct := 1, max_brightness_pct := 100 } 200 =
      spec_absolute_amended
        { offset := -25, min_brightness_pct := 1, max_brightness_pct := 100 } 200 :=
  ⟨by decide, by decide, by decide,
    C1_amended { offset := -25, min_brightness_pct := 1, max_brightness_pct := 100 }
      200 (by decide) (by decide) (by decide)⟩

/-- Claim C2: in relative offset mode the function is claimed to return
`clamp(round(m*(100+offset)/100), minBound, maxBound)`.  Counterexample:
at master 101, offset -50 the code returns 50 (it truncates 50.5 toward
zero) while the claimed formula rounds to 51; moreover, at master 25,
offset 16 the code returns 28 (float arithmetic computes
28.999999999999996) while the truncating exact formula gives 29, so the
amendment must also keep the source's float arithmetic. -/
theorem C2_counterexample :
    calculate_light_brightness OffsetType.relative
        { offset := -50, min_brightness_pct := 1, max_brightness_pct := 100 } 101 ≠
      spec_relative_round
        { offset := -50, min_brightness_pct := 1, max_brightness_pct := 100 } 101 ∧
    calculate_light_brightness OffsetType.relative
        { offset := 16, min_brightness_pct := 1, max_brightness_pct := 100 } 25 ≠
      spec_relative_exact_trunc
        { offset := 16, min_brightness_pct := 1, max_brightness_pct := 100 } 25 := by
  constructor
  · decide
  · decide

/-- Claim C2 as amended: for master brightness in [0,255] and minPct ≤
maxPct, the relative-mode result is `clamp(trunc(m*(100+offset)/100),
minBound, maxBound)` where `trunc` truncates toward zero, the multiplier
and product are IEEE binary64 operations, and the bounds are the source's
truncating conversions of minPct/maxPct to the 0–255 scale. -/
theorem C2_amended (config : MemberConfig) (m : ℤ)
    (h0 : 0 ≤ m) (h255 : m ≤ 255)
    (hminmax : config.min_brightness_pct ≤ config.max_brightness_pct) :
    calculate_light_brightness OffsetType.relative config m =
      spec_relative_amended config m := rfl

/-- Witness for C2: the amended formula evaluated at master 200, offset
-25, bounds [1,100] — the hypotheses hold and both sides equal 150. -/
theorem C2_amended_witness :
    (0 : ℤ) ≤ 200 ∧ (200 : ℤ) ≤ 255 ∧ (1 : ℤ) ≤ 100 ∧
    calculate_light_brightness OffsetType.relative
        { offset := -25, min_brightness_pct := 1, max_brightness_pct := 100 } 200 =
      spec_relative_amended
        { offset := -25, min_brightness_pct := 1, max_brightness_pct := 100 } 200 :=
  ⟨by decide, by decide, by decide,
    C2_amended { offset := -25, min_brightness_pct := 1, max_brightness_pct := 100 }
      200 (by decide) (by decide) (by decide)⟩

/-- Claim C3 claims the absolute-mode result for master 200, offset -25,
bounds [1,100] is 135 (truncating the master percentage to 78 before
applying the offset).  The code does not truncate the intermediate master
percentage and returns 136. -/
theorem C3_counterexample :
    calculate_light_brightness OffsetType.absolute
        { offset := -25, min_brightness_pct := 1, max_brightness_pct := 100 } 200 ≠ 135 := by
  decide

/-- Claim C3 as amended: for master 200, offset -25, minPct 1, maxPct 100
in absolute mode the function returns 136 (master percentage stays
78.431…, target percent 53.431…, scaled to 136.25, truncated to 136,
clamped against the bounds [2, 255]). -/
theorem C3_amended :
    calculate_light_brightness OffsetType.absolute
        { offset := -25, min_brightness_pct := 1, max_brightness_pct := 100 } 200 = 136 := by
  decide

/-- Claim C10: the public brightness query returns `None` whenever the
group is off — even though the master brightness is retained internally —
and returns the stored master brightness while the group is on. -/
theorem C10_brightness_query (s : GroupState) :
    (brightness s = none ↔ s.is_on = false) ∧
    (s.is_on = true → brightness s = some s.master_brightness) := by
  cases h : s.is_on <;> simp [brightness, h]

/-- Witness for C10 at two concrete states: off with retained master 128
queries as `none`, on with master 200 queries as 200. -/
theorem C10_brightness_query_witness :
    brightness example_state_off = none ∧
    brightness example_state_on = some 200 :=
  ⟨(C10_brightness_query example_state_off).1.mpr rfl,
    (C10_brightness_query example_state_on).2 rfl⟩

/-- Helper: a list of member turn-on dispatch events contains no
guard-clearing event. -/
theorem countP_clear_guard_dispatch_map (l : List TurnOnServiceData) :
    (l.map Event.dispatch_turn_on).countP isClearGuard = 0 := by
  induction l with
  | nil => rfl
  | cons a t ih => simp [List.countP_cons, ih, isClearGuard]

/-- Helper: the last element of a cons followed by an append ending in a
nonempty list. -/
theorem getLast?_cons_append_cons {α} (x : α) (l₁ : List α) (a : α) (l₂ : List α) :
    (x :: (l₁ ++ a :: l₂)).getLast? = (a :: l₂).getLast? := by
  rw [← List.cons_append, List.getLast?_append_cons]

/-- Helper: every turn-on trace is the guard-set event, then member
dispatches, then either publish-and-clear or (on a dispatch failure) just
clear. -/
theorem turn_on_trace_shape (cfg : GroupConfig) (s : GroupState)
    (kwargs : TurnOnKwargs) (fail_at : Option ℕ) :
    ∃ body : List TurnOnServiceData, ∃ tail : List Event,
      (async_turn_on cfg s kwargs fail_at).2 =
        Event.set_guard :: (body.map Event.dispatch_turn_on ++ tail) ∧
      (tail = [Event.write_ha_state, Event.clear_guard] ∨ tail = [Event.clear_guard]) := by
  unfold async_turn_on
  cases fail_at with
  | none => exact ⟨_, _, rfl, Or.inl rfl⟩
  | some k =>
    dsimp only
    split
    · exact ⟨_, _, rfl, Or.inr rfl⟩
    · exact ⟨_, _, rfl, Or.inl rfl⟩

/-- Helper: the state after any turn-on has the guard flag cleared. -/
theorem turn_on_clears_flag (cfg : GroupConfig) (s : GroupState)
    (kwargs : TurnOnKwargs) (fail_at : Option ℕ) :
    (async_turn_on cfg s kwargs fail_at).1.applying_state = false := by
  unfold async_turn_on
  cases fail_at with
  | none => rfl
  | some k =>
    dsimp only
    split <;> rfl

/-- Claim C5: in both turn-on and turn-off, the guard flag event is the
first event (before any dispatch), the clearing of the guard is the last
event and happens exactly once, and the resulting state has the guard
flag cleared — on every path, including the paths where a member dispatch
raises (any `fail_at` / `fail`). -/
theorem C5_guard_discipline (cfg : GroupConfig) (s : GroupState)
    (kwargs : TurnOnKwargs) (fail_at : Option ℕ)
    (transition : Option ℚ) (fail : Bool) :
    ((async_turn_on cfg s kwargs fail_at).2.head? = some Event.set_guard ∧
     (async_turn_on cfg s kwargs fail_at).2.getLast? = some Event.clear_guard ∧
     (async_turn_on cfg s kwargs fail_at).2.countP isClearGuard = 1 ∧
     (async_turn_on cfg s kwargs fail_at).1.applying_state = false) ∧
    ((async_turn_off cfg s transition fail).2.head? = some Event.set_guard ∧
     (async_turn_off cfg s transition fail).2.getLast? = some Event.clear_guard ∧
     (async_turn_off cfg s transition fail).2.countP isClearGuard = 1 ∧
     (async_turn_off cfg s transition fail).1.applying_state = false) := by
  constructor
  · obtain ⟨body, tail, htr, htail⟩ := turn_on_trace_shape cfg s kwargs fail_at
    refine ⟨?_, ?_, ?_, turn_on_clears_flag cfg s kwargs fail_at⟩
    · rw [htr]; rfl
    · rw [htr]
      rcases htail with h | h <;> subst h
      · rw [getLast?_cons_append_cons]; rfl
      · rw [getLast?_cons_append_cons]; rfl
    · rw [htr]
      rcases htail with h | h <;> subst h <;>
        simp [List.countP_cons, List.countP_append,
          countP_clear_guard_dispatch_map, isClearGuard]
  · unfold async_turn_off
    cases fail <;>
      exact ⟨rfl, rfl, by simp [List.countP_cons, isClearGuard], rfl⟩

/-- Claim C8: when several color payload attributes are supplied to a
turn-on, the resulting color mode is the last present attribute in the
fixed checking order HS, RGB, RGBW, RGBWW, XY, COLOR_TEMP; and a single
supplied payload is stored as the group's color state with the color mode
set to that payload's mode (shown here for each of the six modes). -/
theorem C8_color_priority (s : GroupState) (kwargs : TurnOnKwargs) :
    (color_payload_modes kwargs ≠ [] →
      (store_color_from_kwargs s kwargs).color_mode =
        (color_payload_modes kwargs).getLast?) ∧
    (color_payload_modes kwargs = [ColorMode.hs] →
      store_color_from_kwargs s kwargs =
        { s with hs_color := kwargs.hs_color, color_mode := some ColorMode.hs }) ∧
    (color_payload_modes kwargs = [ColorMode.rgb] →
      store_color_from_kwargs s kwargs =
        { s with rgb_color := kwargs.rgb_color, color_mode := some ColorMode.rgb }) ∧
    (color_payload_modes kwargs = [ColorMode.rgbw] →
      store_color_from_kwargs s kwargs =
        { s with rgbw_color := kwargs.rgbw_color, color_mode := some ColorMode.rgbw }) ∧
    (color_payload_modes kwargs = [ColorMode.rgbww] →
      store_color_from_kwargs s kwargs =
        { s with rgbww_color := kwargs.rgbww_color, color_mode := some ColorMode.rgbww }) ∧
    (color_payload_modes kwargs = [ColorMode.xy] →
      store_color_from_kwargs s kwargs =
        { s with xy_color := kwargs.xy_color, color_mode := some ColorMode.xy }) ∧
    (color_payload_modes kwargs = [ColorMode.colorTemp] →
      store_color_from_kwargs s kwargs =
        { s with color_temp := kwargs.color_temp, color_mode := some ColorMode.colorTemp }) := by
  obtain ⟨b, hs, ct, rgb, rgbw, rgbww, xy, tr⟩ := kwargs
  cases hs <;> cases rgb <;> cases rgbw <;> cases rgbww <;> cases xy <;> cases ct <;>
    simp [store_color_from_kwargs, color_payload_modes]

/-- Witness for C8: with hs and color temperature supplied together the
color temperature (last in the checking order) wins, and a lone rgb
payload is stored with mode RGB. -/
theorem C8_color_priority_witness :
    (store_color_from_kwargs example_state_off example_kwargs_two_colors).color_mode =
      (color_payload_modes example_kwargs_two_colors).getLast? ∧
    store_color_from_kwargs example_state_off example_kwargs_rgb =
      { example_state_off with
          rgb_color := example_kwargs_rgb.rgb_color
          color_mode := some ColorMode.rgb } :=
  ⟨(C8_color_priority example_state_off example_kwargs_two_colors).1 (by decide),
    (C8_color_priority example_state_off example_kwargs_rgb).2.2.1 (by decide)⟩

/-- Helper: storing color payloads never touches the master brightness. -/
theorem store_color_master (s : GroupState) (kwargs : TurnOnKwargs) :
    (store_color_from_kwargs s kwargs).master_brightness = s.master_brightness := by
  obtain ⟨b, hs, ct, rgb, rgbw, rgbww, xy, tr⟩ := kwargs
  cases hs <;> cases rgb <;> cases rgbw <;> cases rgbww <;> cases xy <;> cases ct <;>
    simp [store_color_from_kwargs]

/-- Claim C4: turn-off leaves the stored master brightness unchanged, and
a subsequent turn-on without an explicit brightness fans out exactly the
member commands computed from the master brightness that was in effect
before the turn-off (and still stores that master brightness
afterwards). -/
theorem C4_master_retained (cfg : GroupConfig) (s : GroupState)
    (transition : Option ℚ) (kwargs : TurnOnKwargs)
    (hb : kwargs.brightness = none) :
    (async_turn_off cfg s transition false).1.master_brightness = s.master_brightness ∧
    (async_turn_on cfg (async_turn_off cfg s transition false).1 kwargs none).2 =
      Event.set_guard ::
        (cfg.entities_config.map (fun ec =>
          Event.dispatch_turn_on (member_turn_on_data cfg s.master_brightness kwargs ec)) ++
         [Event.write_ha_state, Event.clear_guard]) ∧
    (async_turn_on cfg (async_turn_off cfg s transition false).1 kwargs none).1.master_brightness
      = s.master_brightness := by
  refine ⟨rfl, ?_, ?_⟩
  · simp [async_turn_on, async_turn_off, hb, store_color_master, List.map_map,
      Function.comp]
  · simp [async_turn_on, async_turn_off, hb, store_color_master]

/-- Witness for C4: turning the concrete two-member group off and on
again without a brightness argument leaves the master brightness at its
prior value 200. -/
theorem C4_master_retained_witness :
    example_kwargs_plain.brightness = none ∧
    (async_turn_on example_group_config
        (async_turn_off example_group_config example_state_on none false).1
        example_kwargs_plain none).1.master_brightness = 200 :=
  ⟨rfl,
    (C4_master_retained example_group_config example_state_on none
      example_kwargs_plain rfl).2.2⟩

/-- Helper: one member-loop step appends the member to `on_states`
exactly when its observation reports on; skipped members (absent,
unavailable, unknown) contribute nothing. -/
theorem sync_step_on_states (hs : List (String × StateObj)) (acc : SyncAcc)
    (ec : String × MemberConfig) :
    (sync_step hs acc ec).on_states =
      acc.on_states ++ (if reports_on hs ec.1 then [ec.1] else []) := by
  cases hlook : List.lookup ec.1 hs with
  | none => simp [sync_step, reports_on, hlook]
  | some st =>
    cases hst : st.state <;>
      cases hm : st.supported_color_modes <;>
        cases hf : st.supported_features <;>
          simp [sync_step, reports_on, hlook, hst, hm, hf] <;>
            split_ifs <;> simp

/-- Helper: the member loop accumulates exactly the members whose
observation reports on, in configured iteration order. -/
theorem sync_foldl_on_states (entities : List (String × MemberConfig))
    (hs : List (String × StateObj)) (acc : SyncAcc) :
    (entities.foldl (sync_step hs) acc).on_states =
      acc.on_states ++ (entities.map Prod.fst).filter (reports_on hs) := by
  induction entities generalizing acc with
  | nil => simp
  | cons ec rest ih =>
    rw [List.foldl_cons, ih, sync_step_on_states]
    by_cases h : reports_on hs ec.1 <;> simp [h, List.filter_cons]

/-- Helper: the group's on/off flag after a resynchronization pass is the
nonemptiness of the accumulated `on_states`. -/
theorem update_is_on (cfg : GroupConfig) (hs : List (String × StateObj))
    (s : GroupState) :
    (update_state_from_members cfg hs s).is_on =
      !((cfg.entities_config.foldl (sync_step hs)
          { on_states := [], color_modes := ∅, features := 0 }).on_states.isEmpty) := by
  simp only [update_state_from_members]
  split
  · rfl
  · split <;> rfl

/-- Helper: no resynchronization pass modifies the stored master
brightness. -/
theorem update_master (cfg : GroupConfig) (hs : List (String × StateObj))
    (s : GroupState) :
    (update_state_from_members cfg hs s).master_brightness = s.master_brightness := by
  simp only [update_state_from_members]
  split
  · rfl
  · split <;> rfl

/-- Helper: when the member loop found nobody on, all seven color fields
are left untouched. -/
theorem update_colors_of_no_on (cfg : GroupConfig) (hs : List (String × StateObj))
    (s : GroupState)
    (h : (cfg.entities_config.foldl (sync_step hs)
        { on_states := [], color_modes := ∅, features := 0 }).on_states = []) :
    (update_state_from_members cfg hs s).color_mode = s.color_mode ∧
    (update_state_from_members cfg hs s).hs_color = s.hs_color ∧
    (update_state_from_members cfg hs s).color_temp = s.color_temp ∧
    (update_state_from_members cfg hs s).rgb_color = s.rgb_color ∧
    (update_state_from_members cfg hs s).rgbw_color = s.rgbw_color ∧
    (update_state_from_members cfg hs s).rgbww_color = s.rgbww_color ∧
    (update_state_from_members cfg hs s).xy_color = s.xy_color := by
  simp only [update_state_from_members, h]
  exact ⟨rfl, rfl, rfl, rfl, rfl, rfl, rfl⟩

/-- Helper: the refreshed capability fields (and the on/off flag) of a
resynchronization pass do not depend on the prior state — they are
recomputed from the observations alone. -/
theorem update_capabilities_fresh (cfg : GroupConfig) (hs : List (String × StateObj))
    (s t : GroupState) :
    (update_state_from_members cfg hs s).supported_color_modes =
      (update_state_from_members cfg hs t).supported_color_modes ∧
    (update_state_from_members cfg hs s).supported_features =
      (update_state_from_members cfg hs t).supported_features ∧
    (update_state_from_members cfg hs s).is_on =
      (update_state_from_members cfg hs t).is_on := by
  refine ⟨?_, ?_, ?_⟩
  all_goals
    simp only [update_state_from_members]
    split <;> first | rfl | (split <;> rfl)

/-- Claim C6: after every resynchronization pass the group is on if and
only if at least one member observation reports on; members whose
observation is absent or unavailable/unknown are skipped and never
counted (an absent or skipped observation never reports on). -/
theorem C6_group_on_iff (cfg : GroupConfig) (hass_states : List (String × StateObj))
    (s : GroupState) :
    (update_state_from_members cfg hass_states s).is_on = true ↔
      ∃ ec ∈ cfg.entities_config, reports_on hass_states ec.1 = true := by
  rw [update_is_on, sync_foldl_on_states]
  have hne : ∀ l : List String, ((!l.isEmpty) = true ↔ l ≠ []) := by
    intro l; cases l <;> simp
  rw [List.nil_append, hne]
  constructor
  · intro hnonempty
    obtain ⟨e, he⟩ := List.exists_mem_of_ne_nil _ hnonempty
    have hmem := List.mem_filter.mp he
    obtain ⟨ec, hec, rfl⟩ := List.mem_map.mp hmem.1
    exact ⟨ec, hec, hmem.2⟩
  · rintro ⟨ec, hec, hrep⟩ hnil
    have : ec.1 ∈ (cfg.entities_config.map Prod.fst).filter (reports_on hass_states) :=
      List.mem_filter.mpr ⟨List.mem_map_of_mem _ hec, hrep⟩
    rw [hnil] at this
    exact absurd this (List.not_mem_nil _)

/-- Claim C7: a resynchronization pass never modifies the stored master
brightness; when no member observation reports on, every color field of
the runtime state is left unchanged while the on/off flag is refreshed to
off; and the capability fields (and on/off flag) are recomputed from the
observations alone, independently of the prior state. -/
theorem C7_resync_frame (cfg : GroupConfig) (hass_states : List (String × StateObj))
    (s : GroupState) :
    (update_state_from_members cfg hass_states s).master_brightness =
      s.master_brightness ∧
    ((∀ ec ∈ cfg.entities_config, reports_on hass_states ec.1 = false) →
      ((update_state_from_members cfg hass_states s).color_mode = s.color_mode ∧
       (update_state_from_members cfg hass_states s).hs_color = s.hs_color ∧
       (update_state_from_members cfg hass_states s).color_temp = s.color_temp ∧
       (update_state_from_members cfg hass_states s).rgb_color = s.rgb_color ∧
       (update_state_from_members cfg hass_states s).rgbw_color = s.rgbw_color ∧
       (update_state_from_members cfg hass_states s).rgbww_color = s.rgbww_color ∧
       (update_state_from_members cfg hass_states s).xy_color = s.xy_color ∧
       (update_state_from_members cfg hass_states s).is_on = false)) ∧
    (∀ t : GroupState,
      (update_state_from_members cfg hass_states s).supported_color_modes =
        (update_state_from_members cfg hass_states t).supported_color_modes ∧
      (update_state_from_members cfg hass_states s).supported_features =
        (update_state_from_members cfg hass_states t).supported_features) := by
  refine ⟨update_master cfg hass_states s, ?_, fun t =>
    ⟨(update_capabilities_fresh cfg hass_states s t).1,
     (update_capabilities_fresh cfg hass_states s t).2.1⟩⟩
  intro hnone
  have hfilter : (cfg.entities_config.map Prod.fst).filter (reports_on hass_states) = [] := by
    rw [List.filter_eq_nil_iff]
    intro e he
    obtain ⟨ec, hec, rfl⟩ := List.mem_map.mp he
    simp [hnone ec hec]
  have hons : (cfg.entities_config.foldl (sync_step hass_states)
      { on_states := [], color_modes := ∅, features := 0 }).on_states = [] := by
    rw [sync_foldl_on_states, List.nil_append, hfilter]
  obtain ⟨h1, h2, h3, h4, h5, h6, h7⟩ := update_colors_of_no_on cfg hass_states s hons
  refine ⟨h1, h2, h3, h4, h5, h6, h7, ?_⟩
  rw [update_is_on, hons]
  rfl

/-- Witness for C7: resynchronizing the concrete two-member group against
observations in which the first member is off and the second is absent
leaves the stored hs color and master brightness unchanged and turns the
group off. -/
theorem C7_resync_frame_witness :
    (update_state_from_members example_group_config example_hass_states_off
        example_state_off).hs_color = example_state_off.hs_color ∧
    (update_state_from_members example_group_config example_hass_states_off
        example_state_off).is_on = false ∧
    (update_state_from_members example_group_config example_hass_states_off
        example_state_off).master_brightness = example_state_off.master_brightness :=
  ⟨((C7_resync_frame example_group_config example_hass_states_off
      example_state_off).2.1 (by decide)).2.1,
   ((C7_resync_frame example_group_config example_hass_states_off
      example_state_off).2.1 (by decide)).2.2.2.2.2.2.2,
   (C7_resync_frame example_group_config example_hass_states_off
      example_state_off).1⟩

/-- Helper: the digit characters evaluate back to their values. -/
theorem digitVal_digitChar (d : ℕ) (h : d < 10) :
    digitVal (Nat.digitChar d) = some d := by
  interval_cases d <;> decide

/-- Helper: the digit printer never produces an empty list when it has
fuel. -/
theorem natCharsAux_ne_nil (fuel n : ℕ) (h : fuel ≠ 0) :
    natCharsAux fuel n ≠ [] := by
  cases fuel with
  | zero => exact absurd rfl h
  | succ f =>
    simp only [natCharsAux]
    split <;> simp

/-- Helper: every character the digit printer produces is a decimal
digit. -/
theorem natCharsAux_digits (fuel : ℕ) :
    ∀ n c, c ∈ natCharsAux fuel n → (digitVal c).isSome := by
  induction fuel with
  | zero => intro n c hc; simp [natCharsAux] at hc
  | succ f ih =>
    intro n c hc
    simp only [natCharsAux] at hc
    split at hc
    · simp at hc
      subst hc
      simp [digitVal_digitChar n (by omega)]
    · rcases List.mem_append.mp hc with h1 | h1
      · exact ih _ _ h1
      · simp at h1
        subst h1
        simp [digitVal_digitChar _ (Nat.mod_lt n (by omega))]

/-- Helper: the digit-run parser distributes over append. -/
theorem parseNatAux_append (xs ys : Line) (acc : ℕ) :
    parseNatAux (xs ++ ys) acc =
      match parseNatAux xs acc with
      | some a => parseNatAux ys a
      | none => none := by
  induction xs generalizing acc with
  | nil => simp [parseNatAux]
  | cons c rest ih =>
    simp only [List.cons_append, parseNatAux]
    cases digitVal c with
    | none => simp
    | some d => simp [ih]

/-- Helper: parsing the printed digits of `n` onto an accumulator yields
the accumulator shifted by the printed length plus `n`. -/
theorem natCharsAux_spec (fuel : ℕ) :
    ∀ n acc, n < 10 ^ fuel → fuel ≠ 0 →
      parseNatAux (natCharsAux fuel n) acc =
        some (acc * 10 ^ (natCharsAux fuel n).length + n) := by
  induction fuel with
  | zero => intro n acc _ h; exact absurd rfl h
  | succ f ih =>
    intro n acc hn _
    simp only [natCharsAux]
    split
    · rename_i hlt
      simp [parseNatAux, digitVal_digitChar n hlt]
    · rename_i hge
      have h10 : 10 ≤ n := by omega
      have hf : f ≠ 0 := by
        rintro rfl
        simp at hn
        omega
      have hdiv : n / 10 < 10 ^ f := by
        have h1 : n < 10 ^ f * 10 := by rw [← pow_succ]; exact hn
        omega
      rw [parseNatAux_append, ih (n / 10) acc hdiv hf]
      have hmod : digitVal (Nat.digitChar (n % 10)) = some (n % 10) :=
        digitVal_digitChar _ (Nat.mod_lt n (by omega))
      simp only [parseNatAux, hmod, List.length_append, List.length_singleton]
      congr 1
      have : acc * 10 ^ ((natCharsAux f (n / 10)).length + 1) =
          acc * 10 ^ (natCharsAux f (n / 10)).length * 10 := by
        rw [pow_succ, Nat.mul_assoc]
      rw [this]
      omega

/-- Helper: the decimal printer and parser for naturals are mutually
inverse. -/
theorem parseNat_natChars (n : ℕ) : parseNatChars (natChars n) = some n := by
  have hbound : n < 10 ^ (n + 1) :=
    lt_of_lt_of_le (Nat.lt_pow_self (by omega) n)
      (Nat.pow_le_pow_right (by omega) (Nat.le_succ n))
  have hne := natCharsAux_ne_nil (n + 1) n (by omega)
  simp only [parseNatChars, natChars]
  rw [if_neg (by simpa [List.isEmpty_iff] using hne)]
  rw [natCharsAux_spec (n + 1) n 0 hbound (by omega)]
  simp

/-- Helper: the decimal printer and parser for integers are mutually
inverse, matching Python's `int` formatting and YAML's integer
resolution on the printed form. -/
theorem parseInt_intChars (n : ℤ) : parseIntChars (intChars n) = some n := by
  by_cases hn : n < 0
  · simp only [intChars, if_pos hn, parseIntChars]
    simp [parseNat_natChars]
    omega
  · simp only [intChars, if_neg hn]
    obtain ⟨c, cs, hc⟩ : ∃ c cs, natChars n.toNat = c :: cs := by
      cases h : natChars n.toNat with
      | nil => exact absurd h (natCharsAux_ne_nil _ _ (by omega))
      | cons c cs => exact ⟨c, cs, rfl⟩
    have hdigit : (digitVal c).isSome := by
      apply natCharsAux_digits (n.toNat + 1) n.toNat
      rw [show natCharsAux (n.toNat + 1) n.toNat = natChars n.toNat from rfl, hc]
      exact List.mem_cons_self c cs
    have hcm : c ≠ '-' := by
      intro h
      rw [h] at hdigit
      simp [digitVal] at hdigit
    rw [hc, parseIntChars, if_neg hcm, ← hc, parseNat_natChars]
    simp
    omega

/-- Helper: `takeWhile` passes over a satisfied prefix. -/
theorem takeWhile_append_all {α} (p : α → Bool) (xs ys : List α)
    (h : ∀ x ∈ xs, p x = true) :
    (xs ++ ys).takeWhile p = xs ++ ys.takeWhile p := by
  induction xs with
  | nil => simp
  | cons x rest ih =>
    have hx := h x (List.mem_cons_self x rest)
    simp only [List.cons_append, List.takeWhile_cons, hx, if_true]
    rw [ih (fun a ha => h a (List.mem_cons_of_mem x ha))]

/-- Helper: `dropWhile` consumes a satisfied prefix. -/
theorem dropWhile_append_all {α} (p : α → Bool) (xs ys : List α)
    (h : ∀ x ∈ xs, p x = true) :
    (xs ++ ys).dropWhile p = ys.dropWhile p := by
  induction xs with
  | nil => simp
  | cons x rest ih =>
    have hx := h x (List.mem_cons_self x rest)
    simp only [List.cons_append, List.dropWhile_cons, hx, if_true]
    exact ih (fun a ha => h a (List.mem_cons_of_mem x ha))

/-- Helper: `takeWhile` keeps a fully satisfied list. -/
theorem takeWhile_all {α} (p : α → Bool) (l : List α)
    (h : ∀ x ∈ l, p x = true) : l.takeWhile p = l := by
  have := takeWhile_append_all p l [] h
  simpa using this

/-- Helper: `dropWhile` empties a fully satisfied list. -/
theorem dropWhile_all {α} (p : α → Bool) (l : List α)
    (h : ∀ x ∈ l, p x = true) : l.dropWhile p = [] := by
  have := dropWhile_append_all p l [] h
  simpa using this

/-- Helper: a list is a Boolean prefix of itself followed by anything. -/
theorem isPrefixOf_self_append (p x : Line) : p.isPrefixOf (p ++ x) = true := by
  induction p with
  | nil => simp [List.isPrefixOf]
  | cons c rest ih => simp [List.isPrefixOf, ih]

/-- Helper: stripping an exact prefix recovers the remainder. -/
theorem stripPrefix_self_append (p x : Line) :
    stripPrefixLine p (p ++ x) = some x := by
  simp [stripPrefixLine, isPrefixOf_self_append, List.drop_left]

/-- Helper: splitting a serialized `key: value` line recovers key and
value, provided the key contains no colon. -/
theorem splitKV_round (key value : Line) (hkey : ∀ c ∈ key, c ≠ ':') :
    splitKV (key ++ (':' :: ' ' :: value)) = some (key, value) := by
  have htake : (key ++ (':' :: ' ' :: value)).takeWhile (fun c => c != ':') = key := by
    rw [takeWhile_append_all _ key _ (by
      intro c hc
      simpa using hkey c hc)]
    simp [List.takeWhile_cons]
  have hshape : key ++ (':' :: ' ' :: value) = (key ++ [':', ' ']) ++ value := by
    simp
  simp only [splitKV, htake]
  rw [if_pos (by rw [hshape]; exact isPrefixOf_self_append _ _)]
  have hlen : (key ++ [':', ' ']).length = key.length + 2 := by simp
  rw [hshape, ← hlen, List.drop_left]

/-- Helper: an integer scalar printed by the serializer resolves back to
the same integer. -/
theorem resolveScalar_intChars (n : ℤ) :
    resolveScalar (intChars n) = YScalar.int n := by
  simp [resolveScalar, parseInt_intChars]

/-- Helper: a character that is not a decimal digit has no digit value. -/
theorem digitVal_eq_none (c : Char) (h : c.isDigit = false) :
    digitVal c = none := by
  simp [digitVal, h]

/-- Helper: a scalar admitted by `plainName` resolves to itself as a
string (its head character rules out the integer resolution). -/
theorem resolveScalar_plain (s : Line) (h : plainName s = true) :
    resolveScalar s = YScalar.str s := by
  cases s with
  | nil => simp [plainName] at h
  | cons c cs =>
    simp only [plainName, Bool.and_eq_true, Bool.not_eq_true'] at h
    have hhead := h.1.1.1
    simp only [headForbidden, Bool.or_eq_false_iff, beq_eq_false_iff_ne] at hhead
    have hminus : c ≠ '-' := hhead.1.1.1.1.1.1.1.1.1.1.1.1.1.1.1.1.1.1.1.1.1
    have hdigit : c.isDigit = false := by
      have := hhead.1.1.1.1.1.2
      exact this
    simp only [resolveScalar, parseIntChars, if_neg hminus, parseNatChars]
    rw [if_neg (by simp)]
    simp [parseNatAux, digitVal_eq_none c hdigit]

/-- Helper: every line the serializer emits for a light entry is indented
by at least two spaces. -/
theorem light_lines_indent (light : LightConf) :
    ∀ l ∈ light_yaml_lines light, ("  ".toList).isPrefixOf l = true := by
  intro l hl
  simp only [light_yaml_lines, List.mem_cons, List.not_mem_nil, or_false] at hl
  rcases hl with rfl | rfl | rfl | rfl
  · rw [show ("  - entity_id: ".toList) = ("  ".toList) ++ ("- entity_id: ".toList)
      from by decide, List.append_assoc]
    exact isPrefixOf_self_append _ _
  · rw [show ("    offset: ".toList) = ("  ".toList) ++ ("  offset: ".toList)
      from by decide, List.append_assoc]
    exact isPrefixOf_self_append _ _
  · rw [show ("    min_brightness: ".toList) = ("  ".toList) ++ ("  min_brightness: ".toList)
      from by decide, List.append_assoc]
    exact isPrefixOf_self_append _ _
  · rw [show ("    max_brightness: ".toList) = ("  ".toList) ++ ("  max_brightness: ".toList)
      from by decide, List.append_assoc]
    exact isPrefixOf_self_append _ _

/-- Helper: the three continuation lines of a light entry are indented by
four spaces. -/
theorem cont_lines_indent (light : LightConf) :
    ∀ l ∈ (light_yaml_lines light).tail,
      ("    ".toList).isPrefixOf l = true := by
  intro l hl
  simp only [light_yaml_lines, List.tail_cons, List.mem_cons, List.not_mem_nil,
    or_false] at hl
  rcases hl with rfl | rfl | rfl
  · rw [show ("    offset: ".toList) = ("    ".toList) ++ ("offset: ".toList)
      from by decide, List.append_assoc]
    exact isPrefixOf_self_append _ _
  · rw [show ("    min_brightness: ".toList) = ("    ".toList) ++ ("min_brightness: ".toList)
      from by decide, List.append_assoc]
    exact isPrefixOf_self_append _ _
  · rw [show ("    max_brightness: ".toList) = ("    ".toList) ++ ("max_brightness: ".toList)
      from by decide, List.append_assoc]
    exact isPrefixOf_self_append _ _

/-- Helper: the opening line of a light entry is not four-space
indented (its third character is a dash). -/
theorem item_head_not_cont (x : Line) :
    ("    ".toList).isPrefixOf (("  - entity_id: ".toList) ++ x) = false := by
  rw [show ("  - entity_id: ".toList) = ' ' :: ' ' :: '-' :: (" entity_id: ".toList)
    from by decide]
  simp [List.isPrefixOf]

/-- Helper: the serialized lights block never starts with a four-space
indented line, so it contributes nothing to a continuation-line scan. -/
theorem flatten_no_cont_head (lights : List LightConf) :
    ((lights.map light_yaml_lines).flatten).takeWhile
        (fun l2 => ("    ".toList).isPrefixOf l2) = [] ∧
      ((lights.map light_yaml_lines).flatten).dropWhile
        (fun l2 => ("    ".toList).isPrefixOf l2) =
        (lights.map light_yaml_lines).flatten := by
  cases lights with
  | nil => simp
  | cons light rest =>
    have hshape : ((light :: rest).map light_yaml_lines).flatten =
        (("  - entity_id: ".toList) ++ light.entity_id) ::
          ((light_yaml_lines light).tail ++ ((rest.map light_yaml_lines).flatten)) := by
      simp [light_yaml_lines]
    rw [hshape]
    constructor
    · rw [List.takeWhile_cons, item_head_not_cont]
      rfl
    · rw [List.dropWhile_cons, item_head_not_cont]
      rfl

/-- Helper: parsing the three serialized continuation lines of a light
entry recovers its three numeric pairs. -/
theorem parseContPairs_light (o mi ma : ℤ) :
    parseContPairs
      [("    offset: ".toList) ++ intChars o,
       ("    min_brightness: ".toList) ++ intChars mi,
       ("    max_brightness: ".toList) ++ intChars ma] =
      some [(("offset".toList), YScalar.int o),
            (("min_brightness".toList), YScalar.int mi),
            (("max_brightness".toList), YScalar.int ma)] := by
  have h1 : ("    offset: ".toList) ++ intChars o =
      ("    ".toList) ++ (("offset".toList) ++ (':' :: ' ' :: intChars o)) := by
    rw [show ("    offset: ".toList) =
      ("    ".toList) ++ ("offset".toList) ++ [':', ' '] from by decide]
    simp
  have h2 : ("    min_brightness: ".toList) ++ intChars mi =
      ("    ".toList) ++ (("min_brightness".toList) ++ (':' :: ' ' :: intChars mi)) := by
    rw [show ("    min_brightness: ".toList) =
      ("    ".toList) ++ ("min_brightness".toList) ++ [':', ' '] from by decide]
    simp
  have h3 : ("    max_brightness: ".toList) ++ intChars ma =
      ("    ".toList) ++ (("max_brightness".toList) ++ (':' :: ' ' :: intChars ma)) := by
    rw [show ("    max_brightness: ".toList) =
      ("    ".toList) ++ ("max_brightness".toList) ++ [':', ' '] from by decide]
    simp
  have hskv1 : splitKV (("offset".toList) ++ (':' :: ' ' :: intChars o)) =
      some ("offset".toList, intChars o) := splitKV_round _ _ (by decide)
  have hskv2 : splitKV (("min_brightness".toList) ++ (':' :: ' ' :: intChars mi)) =
      some ("min_brightness".toList, intChars mi) := splitKV_round _ _ (by decide)
  have hskv3 : splitKV (("max_brightness".toList) ++ (':' :: ' ' :: intChars ma)) =
      some ("max_brightness".toList, intChars ma) := splitKV_round _ _ (by decide)
  simp only [parseContPairs, h1, h2, h3, stripPrefix_self_append,
    hskv1, hskv2, hskv3, resolveScalar_intChars]

/-- Helper: parsing the serialized lights block recovers every light
entry as its item mapping. -/
theorem parseItemsAux_round (lights : List LightConf) :
    ∀ fuel : ℕ, lights.length < fuel →
      (∀ l ∈ lights, plainName l.entity_id = true) →
      parseItemsAux fuel ((lights.map light_yaml_lines).flatten) =
        some (lights.map light_item_map) := by
  induction lights with
  | nil =>
    intro fuel hf _
    cases fuel with
    | zero => omega
    | succ f => simp [parseItemsAux]
  | cons light rest ih =>
    intro fuel hf hplain
    cases fuel with
    | zero => omega
    | succ f =>
    have hshape : ((light :: rest).map light_yaml_lines).flatten =
        (("  - entity_id: ".toList) ++ light.entity_id) ::
          ((("    offset: ".toList) ++ intChars light.offset) ::
           (("    min_brightness: ".toList) ++ intChars light.min_brightness) ::
           (("    max_brightness: ".toList) ++ intChars light.max_brightness) ::
           ((rest.map light_yaml_lines).flatten)) := by
      simp [light_yaml_lines]
    rw [hshape]
    simp only [parseItemsAux]
    have hstrip : stripPrefixLine ("  - ".toList)
        (("  - entity_id: ".toList) ++ light.entity_id) =
        some (("entity_id".toList) ++ (':' :: ' ' :: light.entity_id)) := by
      rw [show ("  - entity_id: ".toList) =
        ("  - ".toList) ++ ("entity_id".toList) ++ [':', ' '] from by decide]
      rw [List.append_assoc, List.append_assoc]
      rw [stripPrefix_self_append]
      simp
    rw [hstrip]
    have hskv : splitKV (("entity_id".toList) ++ (':' :: ' ' :: light.entity_id)) =
        some ("entity_id".toList, light.entity_id) := splitKV_round _ _ (by decide)
    simp only [hskv]
    have htake : ((("    offset: ".toList) ++ intChars light.offset) ::
        (("    min_brightness: ".toList) ++ intChars light.min_brightness) ::
        (("    max_brightness: ".toList) ++ intChars light.max_brightness) ::
        ((rest.map light_yaml_lines).flatten)).takeWhile
          (fun l2 => ("    ".toList).isPrefixOf l2) =
        [("    offset: ".toList) ++ intChars light.offset,
         ("    min_brightness: ".toList) ++ intChars light.min_brightness,
         ("    max_brightness: ".toList) ++ intChars light.max_brightness] := by
    
      have := takeWhile_append_all (fun l2 => ("    ".toList).isPrefixOf l2)
        [("    offset: ".toList) ++ intChars light.offset,
         ("    min_brightness: ".toList) ++ intChars light.min_brightness,
         ("    max_brightness: ".toList) ++ intChars light.max_brightness]
        ((rest.map light_yaml_lines).flatten)
        (by
          intro x hx
          have := cont_lines_indent light
          simp only [light_yaml_lines, List.tail_cons] at this
          exact this x hx)
      simp only [List.cons_append, List.nil_append] at this
      rw [this, (flatten_no_cont_head rest).1]
    have hdrop : ((("    offset: ".toList) ++ intChars light.offset) ::
        (("    min_brightness: ".toList) ++ intChars light.min_brightness) ::
        (("    max_brightness: ".toList) ++ intChars light.max_brightness) ::
        ((rest.map light_yaml_lines).flatten)).dropWhile
          (fun l2 => ("    ".toList).isPrefixOf l2) =
        (rest.map light_yaml_lines).flatten := by
      have := dropWhile_append_all (fun l2 => ("    ".toList).isPrefixOf l2)
        [("    offset: ".toList) ++ intChars light.offset,
         ("    min_brightness: ".toList) ++ intChars light.min_brightness,
         ("    max_brightness: ".toList) ++ intChars light.max_brightness]
        ((rest.map light_yaml_lines).flatten)
        (by
          intro x hx
          have := cont_lines_indent light
          simp only [light_yaml_lines, List.tail_cons] at this
          exact this x hx)
      simp only [List.cons_append, List.nil_append] at this
      rw [this, (flatten_no_cont_head rest).2]
    have hf2 : rest.length < f := by
      simp only [List.length_cons] at hf
      omega
    rw [htake, hdrop, parseContPairs_light]
    rw [ih f hf2 (fun l hl => hplain l (List.mem_cons_of_mem light hl))]
    simp only [resolveScalar_plain light.entity_id
      (hplain light (List.mem_cons_self light rest))]
    simp [light_item_map]

/-- Helper: the length of the serialized lights block is four lines per
light. -/
theorem flatten_lights_length (lights : List LightConf) :
    ((lights.map light_yaml_lines).flatten).length = 4 * lights.length := by
  induction lights with
  | nil => simp
  | cons light rest ih =>
    simp [light_yaml_lines, ih]
    omega

/-- Helper: one loader step on a `key: value` line. -/
theorem safeLoadAux_cons_kv (fuel : ℕ) (l : Line) (rest : List Line)
    (k v : Line) (doc : YDoc) (h : splitKV l = some (k, v))
    (hrec : safeLoadAux fuel rest = some doc) :
    safeLoadAux (fuel + 1) (l :: rest) =
      some ((k, YTop.scalar (resolveScalar v)) :: doc) := by
  simp [safeLoadAux, h, hrec]

/-- Helper: one loader step on a block-opening `key:` line. -/
theorem safeLoadAux_cons_block (fuel : ℕ) (l : Line) (rest : List Line)
    (bk : Line) (items : List (List (Line × YScalar))) (doc : YDoc)
    (hkv : splitKV l = none) (hbk : blockKeyOf l = some bk)
    (hitems : parseItemsAux
      ((rest.takeWhile (fun l2 => ("  ".toList).isPrefixOf l2)).length + 1)
      (rest.takeWhile (fun l2 => ("  ".toList).isPrefixOf l2)) = some items)
    (hrec : safeLoadAux fuel
      (rest.dropWhile (fun l2 => ("  ".toList).isPrefixOf l2)) = some doc) :
    safeLoadAux (fuel + 1) (l :: rest) = some ((bk, YTop.list items) :: doc) := by
  have hn : ("  ".toList) = [' ', ' '] := by decide
  rw [hn] at hitems hrec
  simp [safeLoadAux, hkv, hbk, hitems, hrec]

/-- Helper: the modelled loader reconstructs the serialized document as
the three-entry mapping name / offset_type / lights. -/
theorem safe_load_round (config : GroupConfigS)
    (hname : plainName config.name = true)
    (hot : plainName config.offset_type = true)
    (hents : ∀ l ∈ config.lights, plainName l.entity_id = true) :
    safe_load (config_to_yaml config) =
      some [(("name".toList), YTop.scalar (YScalar.str config.name)),
            (("offset_type".toList), YTop.scalar (YScalar.str config.offset_type)),
            (("lights".toList), YTop.list (config.lights.map light_item_map))] := by
  have hkv1 : splitKV (("name: ".toList) ++ config.name) =
      some ("name".toList, config.name) := by
    rw [show ("name: ".toList) ++ config.name =
      ("name".toList) ++ (':' :: ' ' :: config.name) from by
        rw [show ("name: ".toList) = ("name".toList) ++ [':', ' '] from by decide]
        simp]
    exact splitKV_round _ _ (by decide)
  have hkv2 : splitKV (("offset_type: ".toList) ++ config.offset_type) =
      some ("offset_type".toList, config.offset_type) := by
    rw [show ("offset_type: ".toList) ++ config.offset_type =
      ("offset_type".toList) ++ (':' :: ' ' :: config.offset_type) from by
        rw [show ("offset_type: ".toList) = ("offset_type".toList) ++ [':', ' ']
          from by decide]
        simp]
    exact splitKV_round _ _ (by decide)
  have hlkv : splitKV ("lights:".toList) = none := by decide
  have hlbk : blockKeyOf ("lights:".toList) = some ("lights".toList) := by decide
  set F := (config.lights.map light_yaml_lines).flatten with hF
  have hFall : ∀ x ∈ F, (fun l2 => ("  ".toList).isPrefixOf l2) x = true := by
    intro x hx
    rw [hF] at hx
    obtain ⟨ls, hls, hxl⟩ := List.mem_flatten.mp hx
    obtain ⟨light, _, rfl⟩ := List.mem_map.mp hls
    exact light_lines_indent light x hxl
  have htakeF : F.takeWhile (fun l2 => ("  ".toList).isPrefixOf l2) = F :=
    takeWhile_all _ _ hFall
  have hdropF : F.dropWhile (fun l2 => ("  ".toList).isPrefixOf l2) = [] :=
    dropWhile_all _ _ hFall
  have hitems : parseItemsAux
      ((F.takeWhile (fun l2 => ("  ".toList).isPrefixOf l2)).length + 1)
      (F.takeWhile (fun l2 => ("  ".toList).isPrefixOf l2)) =
      some (config.lights.map light_item_map) := by
    rw [htakeF, hF, flatten_lights_length]
    exact parseItemsAux_round config.lights _ (by omega) hents
  have h0 : safeLoadAux (F.length + 1) [] = some [] := by
    simp [safeLoadAux]
  have h1 : safeLoadAux (F.length + 1)
      (F.dropWhile (fun l2 => ("  ".toList).isPrefixOf l2)) = some [] := by
    rw [hdropF]
    exact h0
  have h2 : safeLoadAux (F.length + 1 + 1) (("lights:".toList) :: F) =
      some [(("lights".toList), YTop.list (config.lights.map light_item_map))] :=
    safeLoadAux_cons_block (F.length + 1) _ F _ _ _ hlkv hlbk hitems h1
  have h3 : safeLoadAux (F.length + 2 + 1)
      ((("offset_type: ".toList) ++ config.offset_type) :: ("lights:".toList) :: F) =
      some [(("offset_type".toList), YTop.scalar (resolveScalar config.offset_type)),
            (("lights".toList), YTop.list (config.lights.map light_item_map))] :=
    safeLoadAux_cons_kv (F.length + 2) _ _ _ _ _ hkv2 h2
  have h4 : safeLoadAux (F.length + 3 + 1)
      ((("name: ".toList) ++ config.name) ::
        (("offset_type: ".toList) ++ config.offset_type) :: ("lights:".toList) :: F) =
      some [(("name".toList), YTop.scalar (resolveScalar config.name)),
            (("offset_type".toList), YTop.scalar (resolveScalar config.offset_type)),
            (("lights".toList), YTop.list (config.lights.map light_item_map))] :=
    safeLoadAux_cons_kv (F.length + 3) _ _ _ _ _ hkv1 h3
  rw [resolveScalar_plain _ hname, resolveScalar_plain _ hot] at h4
  have hdoc : config_to_yaml config =
      (("name: ".toList) ++ config.name) ::
        (("offset_type: ".toList) ++ config.offset_type) :: ("lights:".toList) :: F := by
    simp [config_to_yaml, hF]
  have hlen : (config_to_yaml config).length + 1 = F.length + 3 + 1 := by
    rw [hdoc]
    simp
  simp only [safe_load]
  rw [hlen, hdoc]
  exact h4

/-- Helper: validating the parsed item mappings of serialized lights
succeeds and reconstructs each entry, for any starting index. -/
theorem validateLights_round (lights : List LightConf)
    (h : ∀ l ∈ lights, ("light.".toList).isPrefixOf l.entity_id = true) :
    ∀ i, validateLights (lights.map light_item_map) i =
      (some (lights.map light_entry_out), none) := by
  induction lights with
  | nil => intro i; simp [validateLights]
  | cons light rest ih =>
    intro i
    have hpref := h light (List.mem_cons_self light rest)
    have hent : validate_light_entry (light_item_map light) i =
        (some (light_entry_out light), none) := by
      have b1 : (("entity_id".toList) == ("entity_id".toList)) = true := by decide
      have b2 : (("offset".toList) == ("entity_id".toList)) = false := by decide
      have b3 : (("offset".toList) == ("offset".toList)) = true := by decide
      have b4 : (("min_brightness".toList) == ("entity_id".toList)) = false := by decide
      have b5 : (("min_brightness".toList) == ("offset".toList)) = false := by decide
      have b6 : (("min_brightness".toList) == ("min_brightness".toList)) = true := by decide
      have b7 : (("max_brightness".toList) == ("entity_id".toList)) = false := by decide
      have b8 : (("max_brightness".toList) == ("offset".toList)) = false := by decide
      have b9 : (("max_brightness".toList) == ("min_brightness".toList)) = false := by decide
      have b10 : (("max_brightness".toList) == ("max_brightness".toList)) = true := by decide
      have hpref2 : ['l', 'i', 'g', 'h', 't', '.'] <+: light.entity_id := by
        simpa using hpref
      simp [validate_light_entry, light_item_map, light_entry_out, List.lookup,
        b1, b2, b3, b4, b5, b6, b7, b8, b9, b10, hpref2]
    simp [validateLights, hent,
      ih (fun l hl => h l (List.mem_cons_of_mem light hl)) (i + 1)]

/-- Claim C9: serializing a structured group configuration with at least
two lights and valid field values (plain-scalar name, offset type and
entity ids, each entity id starting with the light-domain prefix) to YAML
and parsing it back yields the original configuration with no error — a
lossless round trip, the parsed value being the loader's injective image
of the original. -/
theorem C9_yaml_roundtrip (config : GroupConfigS)
    (hlen : 2 ≤ config.lights.length)
    (hname : plainName config.name = true)
    (hot : plainName config.offset_type = true)
    (hlights : ∀ l ∈ config.lights,
      plainName l.entity_id = true ∧
        ("light.".toList).isPrefixOf l.entity_id = true) :
    yaml_to_config (config_to_yaml config) =
      (some (expected_roundtrip config), none) := by
  simp only [yaml_to_config]
  rw [safe_load_round config hname hot (fun l hl => (hlights l hl).1)]
  have b1 : (("name".toList) == ("name".toList)) = true := by decide
  have b2 : (("lights".toList) == ("name".toList)) = false := by decide
  have b3 : (("lights".toList) == ("offset_type".toList)) = false := by decide
  have b4 : (("lights".toList) == ("lights".toList)) = true := by decide
  have b5 : (("offset_type".toList) == ("name".toList)) = false := by decide
  have b6 : (("offset_type".toList) == ("offset_type".toList)) = true := by decide
  have hitems_len : ¬ ((config.lights.map light_item_map).length < 2) := by
    rw [List.length_map]
    omega
  simp only [List.lookup, b1, b2, b3, b4, b5, b6, if_neg hitems_len,
    validateLights_round config.lights (fun l hl => (hlights l hl).2) 0]
  simp [expected_roundtrip]

/-- Witness for C9: the concrete two-light configuration round-trips to
its loader image with no error. -/
theorem C9_yaml_roundtrip_witness :
    yaml_to_config (config_to_yaml roundtrip_example_config) =
      (some (expected_roundtrip roundtrip_example_config), none) :=
  C9_yaml_roundtrip roundtrip_example_config (by decide) (by decide) (by decide)
    (by decide)
